import Mathlib

/-!
Verification of the `mpgepmcusers` registration / OTP module.

The definitions below are a shallow embedding of the Python source under
`src/mpgepmc/mpgepmcusers/` (validators.py, models.py, views.py, utils.py,
forms.py).  Strings are modelled as `List Char`, timestamps as `Nat`,
fallible code as `Except`/`Option`.  Each claim of the specification is
settled by one theorem further down.
-/

/- ### Python string helpers -/

/-- Characters removed by Python's `str.strip()` with no argument
(ASCII whitespace: space, tab, newline, carriage return, vertical tab,
form feed). -/
def isPyWhitespace (c : Char) : Bool :=
  c = ' ' || c = '\t' || c = '\n' || c = '\r' || c = Char.ofNat 11 || c = Char.ofNat 12

/-- Python `s.strip()`: remove leading and trailing whitespace. -/
def pyStrip (s : List Char) : List Char :=
  ((s.dropWhile isPyWhitespace).reverse.dropWhile isPyWhitespace).reverse

/- ### validators.py: password complexity (claim C5) -/

/-- The fixed symbol set `@$!%*#?&` of `PASSWORD_REGEX` (validators.py line 12). -/
def PASSWORD_SYMBOLS : List Char := "@$!%*#?&".data

/-- The character class `[A-Za-z\d@$!%*#?&]` of `PASSWORD_REGEX`:
every character of a matching password must come from this alphabet. -/
def passwordAllowedChar (c : Char) : Bool :=
  c.isLower || c.isUpper || c.isDigit || PASSWORD_SYMBOLS.contains c

/-- Embeds `mpgepmcusers_validate_password_complexity` (validators.py lines
132-140): `re.fullmatch` of
`^(?=.*[a-z])(?=.*[A-Z])(?=.*\d)(?=.*[@$!%*#?&])[A-Za-z\d@$!%*#?&]{8,52}$`.
The four lookaheads require one character of each class somewhere in the
string; the body requires the whole string to consist of 8 to 52 characters
of the allowed alphabet.  Returns `true` when validation passes and `false`
when the Python code raises `ValidationError(code='invalid_password_complexity')`. -/
def mpgepmcusers_validate_password_complexity (s : List Char) : Bool :=
  s.any (·.isLower) && s.any (·.isUpper) && s.any (·.isDigit) &&
    s.any (PASSWORD_SYMBOLS.contains ·) &&
    s.all passwordAllowedChar &&
    decide (8 ≤ s.length) && decide (s.length ≤ 52)

/-- The password rule exactly as the specification words it: "length 8-52;
must contain at least one lowercase letter, one uppercase letter, one digit,
one symbol from a fixed set".  Note the absence of any whole-alphabet
restriction; claim C5 is compared against this. -/
def passwordComplexitySpec (s : List Char) : Prop :=
  8 ≤ s.length ∧ s.length ≤ 52 ∧
    (∃ c ∈ s, c.isLower = true) ∧ (∃ c ∈ s, c.isUpper = true) ∧
    (∃ c ∈ s, c.isDigit = true) ∧ (∃ c ∈ s, PASSWORD_SYMBOLS.contains c = true)

/- ### validators.py: birth date (claim C8) -/

/-- Minimum accepted age (validators.py line 9). -/
def MIN_AGE : Int := 12

/-- Maximum accepted age (validators.py line 10). -/
def MAX_AGE : Int := 150

/-- A Python `datetime.date` value, reduced to its components. -/
structure PyDate where
  year : Int
  month : Int
  day : Int
deriving DecidableEq, Repr

/-- Python tuple comparison `(a1, a2) < (b1, b2)` (lexicographic). -/
def pyPairLt (a b : Int × Int) : Bool :=
  decide (a.1 < b.1 ∨ (a.1 = b.1 ∧ a.2 < b.2))

/-- The whole-years age computation of `mpgepmcusers_validate_birth_date`
(validators.py line 97):
`today.year - value.year - ((today.month, today.day) < (value.month, value.day))`. -/
def pyAge (today value : PyDate) : Int :=
  today.year - value.year -
    (if pyPairLt (today.month, today.day) (value.month, value.day) then 1 else 0)

/-- The two failure codes of the birth-date validator. -/
inductive BirthDateError
  | too_young
  | too_old
deriving DecidableEq, Repr

/-- Embeds `mpgepmcusers_validate_birth_date` (validators.py lines 92-110),
parametrised by `today` (`date.today()` in the source). -/
def mpgepmcusers_validate_birth_date (today value : PyDate) : Except BirthDateError Unit :=
  let age := pyAge today value
  if age < MIN_AGE then .error .too_young
  else if age > MAX_AGE then .error .too_old
  else .ok ()

/- ### Claim theorems: C5, C8 -/

/-- C5 (counterexample): the claim states that password validation succeeds
iff the string is 8-52 characters with at least one lowercase, uppercase,
digit and symbol from the fixed set.  `"Abcdef1!^"` satisfies all of those
conditions yet the validator rejects it, because `PASSWORD_REGEX` further
restricts every character to `[A-Za-z\d@$!%*#?&]` and `^` is outside that
alphabet. -/
theorem C5_password_counterexample :
    passwordComplexitySpec "Abcdef1!^".data ∧
      mpgepmcusers_validate_password_complexity "Abcdef1!^".data = false := by
  constructor
  · refine ⟨by decide, by decide, ⟨'b', by decide⟩, ⟨'A', by decide⟩,
      ⟨'1', by decide⟩, ⟨'!', by decide⟩⟩
  · decide

/-- C5 (amended): password validation succeeds iff the string is 8-52
characters long, contains at least one lowercase letter, one uppercase
letter, one digit and one symbol from the fixed set, AND every character is
drawn from the allowed alphabet (letters, digits, and the fixed symbol set);
`"Abcdef1!"` passes. -/
theorem C5_password_complexity :
    (∀ s : List Char,
      mpgepmcusers_validate_password_complexity s = true ↔
        (passwordComplexitySpec s ∧ s.all passwordAllowedChar = true)) ∧
    mpgepmcusers_validate_password_complexity "Abcdef1!".data = true := by
  constructor
  · intro s
    simp only [mpgepmcusers_validate_password_complexity, passwordComplexitySpec,
      Bool.and_eq_true, List.any_eq_true, decide_eq_true_eq]
    tauto
  · decide

/- ### models.py / utils.py / views.py: the OTP lifecycle (claims C1, C2, C10) -/

/-- A row of the `mpgepmcusersOTP` model (models.py lines 124-160): the
6-digit code, the expiry timestamp, the failed-attempt counter and the
invalidated flag.  Timestamps are `Nat` (`created_at` is never read by the
embedded operations and is omitted). -/
structure OTPRecord where
  otp_code : List Char
  expires_at : Nat
  fail_attempts : Nat
  invalidated : Bool
deriving DecidableEq, Repr

/-- Embeds `mpgepmcusersOTP.is_expired` (models.py lines 141-143):
`timezone.now() > self.expires_at`. -/
def OTPRecord.is_expired (r : OTPRecord) (now : Nat) : Bool :=
  decide (now > r.expires_at)

/-- Embeds `mpgepmcusersOTP.is_valid_and_not_expired` (models.py lines
145-147): `not self.is_expired() and not self.invalidated`. -/
def OTPRecord.is_valid_and_not_expired (r : OTPRecord) (now : Nat) : Bool :=
  !(r.is_expired now) && !r.invalidated

/-- Embeds `mpgepmcusers_generate_otp` (utils.py lines 76-100) combined with
`mpgepmcusersOTP.save` under the `_regenerate` signal (models.py lines
149-160): the record is created or replaced with the fresh code,
`fail_attempts = 0`, `invalidated = False`, and
`expires_at = timezone.now() + OTP_EXPIRY_TIME` (`ttl`). -/
def mpgepmcusers_generate_otp (now ttl : Nat) (code : List Char) : OTPRecord :=
  { otp_code := code, expires_at := now + ttl, fail_attempts := 0, invalidated := false }

/-- The user-visible outcomes of a POST to the OTP-verification view. -/
inductive VerifyOutcome
  | invalid_state
  | empty_code
  | verified
  | wrong_code_invalidated (attempts : Nat)
  | wrong_code (remaining : Nat)
deriving DecidableEq, Repr

/-- Embeds the POST branch of `mpgepmcusers_otp_verify` for an inactive user
with an existing OTP record (views.py lines 169-203).  Returns the outcome
message and the record afterwards (`none` = record deleted on success).
Branch order follows the source: invalid/expired state first, then the
empty-submission check, then the comparison
`otp_record.otp_code == otp_code.strip()`, else the failure path that
increments `fail_attempts` and invalidates at 3. -/
def mpgepmcusers_otp_verify_post (now : Nat) (r : OTPRecord) (otp_code : Option (List Char)) :
    VerifyOutcome × Option OTPRecord :=
  if !(r.is_valid_and_not_expired now) then (.invalid_state, some r)
  else
    match otp_code with
    | none => (.empty_code, some r)
    | some s =>
      if pyStrip s = [] then (.empty_code, some r)
      else if r.otp_code = pyStrip s then (.verified, none)
      else
        let f := r.fail_attempts + 1
        if 3 ≤ f then
          (.wrong_code_invalidated f, some { r with fail_attempts := f, invalidated := true })
        else
          (.wrong_code (3 - f), some { r with fail_attempts := f })

/-- The user-visible outcomes of `mpgepmcusers_resend_otp`. -/
inductive ResendOutcome
  | rejected_active
  | sent (expires_at : Nat)
  | send_failed
deriving DecidableEq, Repr

/-- Embeds `mpgepmcusers_resend_otp` (views.py lines 213-253) for a known
unverified user: if a record exists and `expires_at > now` the request is
rejected with HTTP 429 and nothing changes; otherwise a fresh record is
produced by `mpgepmcusers_generate_otp` and the email send outcome
(`sendOk`) selects between the success and the HTTP 500 response. -/
def mpgepmcusers_resend_otp (now ttl : Nat) (newCode : List Char) (sendOk : Bool)
    (cur : Option OTPRecord) : ResendOutcome × Option OTPRecord :=
  match cur with
  | some r =>
    if decide (r.expires_at > now) then (.rejected_active, some r)
    else
      let nr := mpgepmcusers_generate_otp now ttl newCode
      (if sendOk then .sent nr.expires_at else .send_failed, some nr)
  | none =>
    let nr := mpgepmcusers_generate_otp now ttl newCode
    (if sendOk then .sent nr.expires_at else .send_failed, some nr)

/-- The states of one user's OTP record reachable through the module's
operations: no record yet, generation (signup / signin reissue), a
verification POST, and a resend request. -/
inductive OTPReachable : Option OTPRecord → Prop
  | init : OTPReachable none
  | generate (s : Option OTPRecord) (now ttl : Nat) (code : List Char) :
      OTPReachable s → OTPReachable (some (mpgepmcusers_generate_otp now ttl code))
  | verify (r : OTPRecord) (now : Nat) (sub : Option (List Char)) :
      OTPReachable (some r) → OTPReachable (mpgepmcusers_otp_verify_post now r sub).2
  | resend (s : Option OTPRecord) (now ttl : Nat) (code : List Char) (sendOk : Bool) :
      OTPReachable s → OTPReachable (mpgepmcusers_resend_otp now ttl code sendOk s).2

/-- The counter invariant: `fail_attempts` never exceeds 3, and a counter at
3 always comes with the invalidated flag. -/
def OTPCounterInv : Option OTPRecord → Prop
  | none => True
  | some r => r.fail_attempts ≤ 3 ∧ (r.fail_attempts = 3 → r.invalidated = true)

/- ### views.py: signup (claim C3) -/

/-- The outcome messages of the signup POST handler (views.py lines
127-133): the success banner, the `IntegrityError` branch, and the
catch-all branch. -/
inductive SignupMsg
  | success
  | conflict
  | unexpected_error
deriving DecidableEq, Repr

/-- Result of a signup POST: the persisted user emails, the OTP record of
the new user, and the message shown to the caller. -/
structure SignupResult where
  users : List (List Char)
  otp : Option OTPRecord
  msg : SignupMsg
deriving DecidableEq, Repr

/-- Embeds the valid-form POST path of `mpgepmcusers_signup` (views.py lines
113-133): `form.save()` persists the inactive user, an OTP record is
generated, and `mpgepmcusers_send_otp_email` is called.  The boolean
returned by the send helper (utils.py lines 102-142: `False` on failure —
exceptions are caught inside the helper itself) is not inspected by the
view, which proceeds unconditionally to the success message and the
redirect; `sendOk` is therefore bound and discarded here exactly as in the
source. -/
def mpgepmcusers_signup_post (store : List (List Char)) (now ttl : Nat)
    (code email : List Char) (sendOk : Bool) : SignupResult :=
  let users' := email :: store
  let otp := mpgepmcusers_generate_otp now ttl code
  let _sent := sendOk
  { users := users', otp := some otp, msg := .success }

/- ### validators.py: mobile number (claim C7) -/

/-- A `MobileValidationRule` row (models.py lines 209-233).  The
`operator_codes` column holds a raw regex segment; it is embedded as the
decidable language `operator_matches` that the segment denotes (the
validator strips surrounding whitespace from the segment before use,
validators.py line 169). -/
structure MobileValidationRule where
  country_code : List Char
  operator_matches : List Char → Bool
  user_number_length : Nat
  example_format : List Char

/-- The failure modes of the mobile-number validator, carrying the data the
user-facing messages interpolate. -/
inductive MobileError
  | invalid_country_code (allowed_codes : List (List Char))
  | invalid_mobile_number_format (country_code : List Char) (length : Nat)
      (example_value : List Char)
deriving DecidableEq, Repr

/-- Full match of `(<operator segment>)(\d{user_number_length})$` against
the remainder after the country code: some split of `rest` has its first
part in the operator language and its second part exactly the configured
count of digits. -/
def mobileRestMatches (rule : MobileValidationRule) (rest : List Char) : Bool :=
  (List.range (rest.length + 1)).any fun i =>
    rule.operator_matches (rest.take i) &&
    decide ((rest.drop i).length = rule.user_number_length) &&
    (rest.drop i).all (·.isDigit)

/-- Embeds `mpgepmcusers_validate_mobile_number` (validators.py lines
142-188): the first configured rule whose country code starts the submitted
value is selected (`for r in all_rules: if value.startswith(r.country_code):
break`); with no match, the `invalid_country_code` error lists every
configured code; otherwise `re.fullmatch` of
`^<escaped country code>(<operator segment>)(\d\x7buser_number_length\x7d)$`
must succeed, else the `invalid_mobile_number_format` error cites the
rule's country code, subscriber length and example format. -/
def mpgepmcusers_validate_mobile_number (rules : List MobileValidationRule)
    (value : List Char) : Except MobileError Unit :=
  match rules.find? (fun r => r.country_code.isPrefixOf value) with
  | none => .error (.invalid_country_code (rules.map (·.country_code)))
  | some rule =>
    if mobileRestMatches rule (value.drop rule.country_code.length) then .ok ()
    else .error (.invalid_mobile_number_format rule.country_code
        rule.user_number_length rule.example_format)

/-- The specification's example rule: country code `+92`, an operator-code
pattern whose language is exactly `300`, subscriber length 7. -/
def pkRule : MobileValidationRule :=
  { country_code := "+92".data,
    operator_matches := fun s => s == "300".data,
    user_number_length := 7,
    example_format := "+923001234567".data }

/- ### forms.py: signup form, gender and its qualifier (claim C9) -/

/-- The stored values of `GENDER_CHOICES` (models.py lines 13-18). -/
def GENDER_VALUES : List (List Char) := ["M".data, "F".data, "O".data]

/-- The `OTHER` constant (models.py line 10). -/
def OTHER : List Char := "O".data

/-- The stored values of `CUSTOM_GENDER_OPTIONS` (forms.py lines 14-19):
the empty placeholder plus the three selectable qualifiers. -/
def CUSTOM_GENDER_OPTIONS : List (List Char) :=
  [[], "Non-binary".data, "Transgender".data, "Prefer-not-to-say".data]

/-- The gender-related validation errors of `mpgepmcusersSignupForm`. -/
inductive GenderFormError
  | gender_required
  | gender_invalid_choice
  | custom_gender_invalid_choice
  | custom_gender_required_for_other
deriving DecidableEq, Repr

/-- Embeds the gender-related validation of the signup form: the framework
ChoiceField checks for `gender` (required, must be a declared choice value;
forms.py lines 57-61 and `clean_gender`, lines 116-123) and for
`custom_gender` (optional, but a non-empty submission must be one of
`CUSTOM_GENDER_OPTIONS`; forms.py lines 46-54), plus the cross-field check
of `mpgepmcusersSignupForm.clean` (forms.py lines 165-168):
`gender == OTHER and (not custom_gender or custom_gender.strip() == ...)`
adds the qualifier-required error. -/
def signupForm_gender_errors (gender custom_gender : List Char) : List GenderFormError :=
  (if gender = [] then [.gender_required]
   else if ¬ (gender ∈ GENDER_VALUES) then [.gender_invalid_choice]
   else []) ++
  (if custom_gender ≠ [] ∧ ¬ (custom_gender ∈ CUSTOM_GENDER_OPTIONS) then
    [.custom_gender_invalid_choice]
   else []) ++
  (if gender = OTHER ∧ pyStrip custom_gender = [] then
    [.custom_gender_required_for_other]
   else [])

/-- Embeds `mpgepmcusersSignupForm.save` (forms.py lines 172-190),
restricted to the `custom_gender` column it decides: when the chosen gender
is `OTHER` the cleaned qualifier is stored, otherwise the column is cleared
to `None` regardless of what was submitted. -/
def signupForm_save_custom_gender (gender custom_gender : List Char) : Option (List Char) :=
  if gender = OTHER then some custom_gender else none

/- ### Password reset request (claim C6) -/

/-- A `mpgepmcusersPasswordResetToken` row (models.py lines 166-202). -/
structure ResetTokenRecord where
  token : List Char
  expires_at : Nat
  is_used : Bool
deriving DecidableEq, Repr

/-- The reset-token time to live: 2 hours (models.py line 173), in seconds. -/
def RESET_TOKEN_EXPIRY : Nat := 7200

/-- The response of the forgot-password view. -/
inductive ForgotPasswordResponse
  | generic_success
  | error_response (msg : List Char)
deriving DecidableEq, Repr

/-- Modelled from the spec: the view `mpgepmcusers_forgot_password` is named
by urls.py line 22 but its definition is absent from views.py, so the
handler is modelled from the specification's Password Reset Manager
"Request" description (spec §4.3): look up the user by email, silently
succeeding when the email is not registered; when found, delete any prior
token, create a new opaque token expiring 2 hours from now (to be delivered
by the notification sender); in every case return the same generic success
response. -/
def mpgepmcusers_forgot_password (registered : List (List Char))
    (tokens : List (List Char × ResetTokenRecord)) (now : Nat)
    (email newToken : List Char) :
    List (List Char × ResetTokenRecord) × ForgotPasswordResponse :=
  if email ∈ registered then
    ((tokens.filter (fun p => decide (p.1 ≠ email))).concat
        (email, { token := newToken, expires_at := now + RESET_TOKEN_EXPIRY,
                  is_used := false }),
      .generic_success)
  else
    (tokens, .generic_success)

/- ### views.py: the live-validation endpoint (claim C4) -/

/-- A parsed JSON value, as produced by `json.loads`. -/
inductive JVal
  | jstr (s : List Char)
  | jnum (n : Int)
  | jbool (b : Bool)
  | jnull
  | jarr (xs : List JVal)
  | jobj (fields : List (List Char × JVal))

/-- Python `data.get(key)` on the parsed JSON object (returns the default
`None` when the key is absent). -/
def jGet (fields : List (List Char × JVal)) (key : List Char) : Option JVal :=
  (fields.find? (fun p => p.1 == key)).map (·.2)

/-- Python truthiness `bool(x)` of a JSON value. -/
def jTruthy : JVal → Bool
  | .jstr s => !s.isEmpty
  | .jnum n => n != 0
  | .jbool b => b
  | .jnull => false
  | .jarr xs => !xs.isEmpty
  | .jobj fs => !fs.isEmpty

/-- Python `x == 'literal'` where `x` is `data.get(key)`: true exactly when
the value is present and is that string. -/
def jIsStr (v : Option JVal) (s : List Char) : Bool :=
  match v with
  | some (.jstr t) => t == s
  | _ => false

/-- `data.get(key, '').strip()` (views.py lines 270 and 273): the default
empty string is used when the key is absent; `none` models the uncaught
`AttributeError` Python raises when the present value is not a string —
these two calls run before the handler's `try` block. -/
def jGetStrThenStrip (fields : List (List Char × JVal)) (key : List Char) :
    Option (List Char) :=
  match jGet fields key with
  | none => some (pyStrip [])
  | some (.jstr s) => some (pyStrip s)
  | some _ => none

/-- The JSON body shape the endpoint answers with: `is_valid` and `error`
(both `JsonResponse` and the `HttpResponseBadRequest` wrap this same
dict). -/
structure AjaxResponse where
  is_valid : Bool
  error_msg : List Char
deriving DecidableEq, Repr

/-- The collaborators the dispatch body calls (views.py lines 293-358) that
are not embedded elsewhere in this file: the name validator, the email
format validator and `datetime.strptime` raise (`Except.error` carrying the
exception's message text) or return; the store lookups report whether the
value already exists.  The handler's `except Exception` treats every raise
uniformly, so claim C4 is settled for arbitrary collaborators. -/
structure AjaxDeps where
  validate_name : List Char → List Char → Except (List Char) Unit
  validate_email_fmt : List Char → Except (List Char) Unit
  strptime_date : List Char → Except (List Char) PyDate
  today : PyDate
  email_exists : List Char → Bool
  mobile_rules : List MobileValidationRule
  mobile_exists : List Char → Bool

/-- Rendering of the birth-date validation errors (validators.py lines
99-110), with the configured ages interpolated. -/
def birthDateErrorMessage : BirthDateError → List Char
  | .too_young => "you are under age 12 yrs".data
  | .too_old => "you are over age 150 yrs".data

/-- Rendering of the mobile validation errors (validators.py lines 160-188);
the interpolated parameters are elided, which no claim observes. -/
def mobileErrorMessage : MobileError → List Char
  | .invalid_country_code _ => "Mobile number must start with a valid country code.".data
  | .invalid_mobile_number_format _ _ _ =>
      "Invalid mobile number format. Check Admin for allowed operator codes.".data

/-- The password validation error message (validators.py line 138). -/
def passwordErrorMessage : List Char :=
  "Password must be 8-52 characters long and contain at least 1 small letter, 1 capital letter, 1 digit, and 1 symbol.".data

/-- The characters stripped by `error_message.strip(...)`
(views.py line 384): square brackets and both quote characters. -/
def ajaxStripSetChar (c : Char) : Bool :=
  c = '[' || c = ']' || c = '\'' || c = '\"'

/-- Python `s.strip(chars)`: remove leading and trailing characters from the
given set. -/
def pyStripChars (p : Char → Bool) (s : List Char) : List Char :=
  ((s.dropWhile p).reverse.dropWhile p).reverse

/-- Python substring test `pat in hay`. -/
def listHasSub (pat : List Char) : List Char → Bool
  | [] => pat.isPrefixOf []
  | c :: t => pat.isPrefixOf (c :: t) || listHasSub pat t

/-- Embeds the consolidated exception handling of the endpoint (views.py
lines 360-391): the raised exception's message text is stripped of wrapping
brackets/quotes, the `datetime.strptime` format error is replaced by the
friendly date message, and an empty or placeholder result falls back to the
default message. -/
def ajaxErrorMessage (e : List Char) : List Char :=
  let m := pyStripChars ajaxStripSetChar e
  if listHasSub "time data".data m && listHasSub "does not match format".data m then
    "Invalid date format. Please use YYYY-MM-DD.".data
  else if m.isEmpty || m == "<exception str() failed>".data ||
      m == "Validation error.".data then
    "Validation error occurred. Please check your input.".data
  else m

/-- The `try ... except Exception` boundary of the endpoint: a normal
result carries the `(is_valid, error_message)` pair, a raise is converted
into an invalid response with the cleaned-up message. -/
def runAjaxTry (x : Except (List Char) (Bool × List Char)) : AjaxResponse :=
  match x with
  | .ok (v, m) => { is_valid := v, error_msg := m }
  | .error e => { is_valid := false, error_msg := ajaxErrorMessage e }

/-- The gender branch (views.py lines 303-313): pure checks against the
declared choice values and, for `Other`, the presence of the qualifier. -/
def ajaxGenderCheck (value custom_gender_value : List Char) : Bool × List Char :=
  if !(GENDER_VALUES.contains value) then
    (false, "Invalid gender selected.".data)
  else if value == OTHER then
    if custom_gender_value.isEmpty then
      (false, "You must specify your gender in the text box.".data)
    else (true, [])
  else (true, [])

/-- The custom-gender branch (views.py lines 316-331): the qualifier is
validated only when the submitted gender context equals `Other`; every
other context is valid. -/
def ajaxCustomGenderCheck (value : List Char) (gender_field_value : Option JVal) :
    Bool × List Char :=
  if jIsStr gender_field_value "O".data then
    if value.isEmpty then
      (false, "You must select an option from the dropdown when Other is selected.".data)
    else (true, [])
  else if (match gender_field_value with | some g => jTruthy g | none => false) &&
      !(jIsStr gender_field_value "O".data) then
    (true, [])
  else
    (true, [])

/-- The `if/elif` dispatch inside the `try` block (views.py lines 293-358),
each branch wrapped by the `except Exception` boundary.  An unrecognised or
non-string field name falls through every branch and returns the
initialised `(True, ...)` pair, as in the source. -/
def ajaxDispatch (deps : AjaxDeps) (fieldName : Option JVal)
    (value custom_gender_value : List Char) (gender_field_value : Option JVal) :
    AjaxResponse :=
  if jIsStr fieldName "first_name".data || jIsStr fieldName "last_name".data then
    runAjaxTry (do
      deps.validate_name value
        (if jIsStr fieldName "first_name".data then "First Name".data else "Last Name".data)
      pure (true, []))
  else if jIsStr fieldName "middle_name".data then
    runAjaxTry (do
      deps.validate_name value "Middle Name".data
      pure (true, []))
  else if jIsStr fieldName "gender".data then
    runAjaxTry (pure (ajaxGenderCheck value custom_gender_value))
  else if jIsStr fieldName "custom_gender".data then
    runAjaxTry (pure (ajaxCustomGenderCheck value gender_field_value))
  else if jIsStr fieldName "date_of_birth".data then
    runAjaxTry (do
      let dob ← deps.strptime_date value
      match mpgepmcusers_validate_birth_date deps.today dob with
      | .ok _ => pure (true, [])
      | .error e => Except.error (birthDateErrorMessage e))
  else if jIsStr fieldName "email".data then
    runAjaxTry (do
      deps.validate_email_fmt value
      if deps.email_exists value then
        pure (false, "This email is already registered.".data)
      else pure (true, []))
  else if jIsStr fieldName "mobile_number".data then
    runAjaxTry (do
      match mpgepmcusers_validate_mobile_number deps.mobile_rules value with
      | .ok _ =>
        if deps.mobile_exists value then
          pure (false, "This mobile number is already registered.".data)
        else pure (true, [])
      | .error e => Except.error (mobileErrorMessage e))
  else if jIsStr fieldName "password".data then
    runAjaxTry (
      if mpgepmcusers_validate_password_complexity value then Except.ok (true, [])
      else Except.error passwordErrorMessage)
  else
    { is_valid := true, error_msg := [] }

/-- The continuation after the required-field gate: the early exit for an
empty optional middle name (views.py lines 290-291), else the dispatch. -/
def ajaxAfterRequired (deps : AjaxDeps) (fieldName : Option JVal)
    (value custom_gender_value : List Char) (gender_field_value : Option JVal) :
    AjaxResponse :=
  if jIsStr fieldName "middle_name".data && value.isEmpty then
    { is_valid := true, error_msg := [] }
  else
    ajaxDispatch deps fieldName value custom_gender_value gender_field_value

/-- Embeds `mpgepmcusers_ajax_validate` (views.py lines 257-394) for an
already-parsed JSON body.  `none` models an exception escaping the handler:
the `.get` calls on a non-object body and the `.strip()` calls on lines
270/273 run before or outside the `try` block, so a non-object body or a
present non-string `value`/`custom_gender` raises `AttributeError`
uncaught.  `some r` is the JSON response of shape `is_valid`/`error` (the
missing-required-value case is HTTP 400 but carries the same shape). -/
def mpgepmcusers_ajax_validate (deps : AjaxDeps) (body : JVal) : Option AjaxResponse :=
  match body with
  | .jobj data =>
    let fieldName := jGet data "field".data
    match jGetStrThenStrip data "value".data with
    | none => none
    | some value =>
      match jGetStrThenStrip data "custom_gender".data with
      | none => none
      | some custom_gender_value =>
        let gender_field_value := jGet data "gender".data
        if value.isEmpty && !(jIsStr fieldName "middle_name".data) then
          if jIsStr fieldName "custom_gender".data &&
              jIsStr gender_field_value "O".data then
            some (ajaxAfterRequired deps fieldName value custom_gender_value
              gender_field_value)
          else
            some { is_valid := false, error_msg := "Missing required field value.".data }
        else
          some (ajaxAfterRequired deps fieldName value custom_gender_value
            gender_field_value)
  | _ => none

/-- The request boundary including parsing: a body rejected by `json.loads`
gets the `Invalid JSON payload` bad-request response (views.py lines
263-266, modelled by the `none` input); a parsed body is processed by the
handler. -/
def mpgepmcusers_ajax_validate_request (deps : AjaxDeps) (body : Option JVal) :
    Option AjaxResponse :=
  match body with
  | none => some { is_valid := false, error_msg := "Invalid JSON payload.".data }
  | some v => mpgepmcusers_ajax_validate deps v

/-- A concrete dependency bundle for the C4 counterexample and witness. -/
def ajaxDeps0 : AjaxDeps :=
  { validate_name := fun _ _ => Except.ok (),
    validate_email_fmt := fun _ => Except.ok (),
    strptime_date := fun _ =>
      Except.error "time data does not match format %Y-%m-%d".data,
    today := { year := 2026, month := 10, day := 12 },
    email_exists := fun _ => false,
    mobile_rules := [pkRule],
    mobile_exists := fun _ => false }

theorem otp_verify_preserves_inv (now : Nat) (r : OTPRecord) (sub : Option (List Char))
    (h : OTPCounterInv (some r)) :
    OTPCounterInv (mpgepmcusers_otp_verify_post now r sub).2 := by
  obtain ⟨h1, h2⟩ := h
  cases hv : r.is_valid_and_not_expired now with
  | false =>
    simp [mpgepmcusers_otp_verify_post, hv, OTPCounterInv]
    exact ⟨h1, h2⟩
  | true =>
    have hinv : r.invalidated = false := by
      unfold OTPRecord.is_valid_and_not_expired at hv
      cases hb : r.invalidated <;> simp [hb] at hv ⊢
    have hf : r.fail_attempts ≤ 2 := by
      rcases Nat.lt_or_ge r.fail_attempts 3 with h | h
      · omega
      · have := h2 (by omega)
        rw [hinv] at this
        cases this
    cases sub with
    | none =>
      simp [mpgepmcusers_otp_verify_post, hv, OTPCounterInv]
      exact ⟨h1, h2⟩
    | some s =>
      by_cases hs : pyStrip s = []
      · simp [mpgepmcusers_otp_verify_post, hv, hs, OTPCounterInv]
        exact ⟨h1, h2⟩
      · by_cases hc : r.otp_code = pyStrip s
        · simp [mpgepmcusers_otp_verify_post, hv, hs, hc, OTPCounterInv]
        · by_cases h3 : 3 ≤ r.fail_attempts + 1
          · simp [mpgepmcusers_otp_verify_post, hv, hs, hc, h3, OTPCounterInv]
            omega
          · simp [mpgepmcusers_otp_verify_post, hv, hs, hc, h3, OTPCounterInv]
            omega

theorem otp_resend_preserves_inv (now ttl : Nat) (code : List Char) (sendOk : Bool)
    (s : Option OTPRecord) (h : OTPCounterInv s) :
    OTPCounterInv (mpgepmcusers_resend_otp now ttl code sendOk s).2 := by
  cases s with
  | none => simp [mpgepmcusers_resend_otp, OTPCounterInv, mpgepmcusers_generate_otp]
  | some r =>
    by_cases he : r.expires_at > now
    · simpa [mpgepmcusers_resend_otp, he, OTPCounterInv] using h
    · simp [mpgepmcusers_resend_otp, he, OTPCounterInv, mpgepmcusers_generate_otp]

theorem otp_reachable_inv (s : Option OTPRecord) (h : OTPReachable s) : OTPCounterInv s := by
  induction h with
  | init => trivial
  | generate s now ttl code _ _ =>
    exact ⟨by simp [mpgepmcusers_generate_otp], by simp [mpgepmcusers_generate_otp]⟩
  | verify r now sub _ ih => exact otp_verify_preserves_inv now r sub ih
  | resend s now ttl code sendOk _ ih => exact otp_resend_preserves_inv now ttl code sendOk s ih

/-- C8: birth-date validation fails with `too_young` exactly when the
whole-years age as of `today` is strictly below 12, fails with `too_old`
exactly when it is strictly above 150, and passes exactly when the age lies
in [12, 150]. -/
theorem C8_birth_date_age_bounds :
    ∀ today value : PyDate,
      (mpgepmcusers_validate_birth_date today value = .error .too_young ↔
        pyAge today value < MIN_AGE) ∧
      (mpgepmcusers_validate_birth_date today value = .error .too_old ↔
        MAX_AGE < pyAge today value) ∧
      (mpgepmcusers_validate_birth_date today value = .ok () ↔
        (MIN_AGE ≤ pyAge today value ∧ pyAge today value ≤ MAX_AGE)) := by
  intro today value
  simp only [mpgepmcusers_validate_birth_date, MIN_AGE, MAX_AGE]
  split_ifs with h1 h2 <;> refine ⟨?_, ?_, ?_⟩ <;> simp_all
  all_goals omega

/-- C1: across all operations on a user's OTP record the fail-attempt
counter stays in [0, 3] (first conjunct: every reachable record satisfies
the bound); submitting a wrong non-empty code while the record is usable
increments the counter by one and sets the invalidated flag exactly when
the new count reaches 3 (second conjunct); and once invalidated, any
further submission — correct or wrong — is rejected with the
invalid-state outcome (the "expired or marked invalid" message) leaving
the record unchanged, so the counter is not incremented further (third
conjunct). -/
theorem C1_otp_fail_counter :
    (∀ s, OTPReachable s → ∀ r, s = some r →
        r.fail_attempts ≤ 3 ∧ (r.fail_attempts = 3 → r.invalidated = true)) ∧
    (∀ (now : Nat) (r : OTPRecord) (sub : List Char),
        r.is_valid_and_not_expired now = true →
        pyStrip sub ≠ [] → r.otp_code ≠ pyStrip sub →
        ∃ r', (mpgepmcusers_otp_verify_post now r (some sub)).2 = some r' ∧
          r'.fail_attempts = r.fail_attempts + 1 ∧
          r'.invalidated = decide (3 ≤ r.fail_attempts + 1)) ∧
    (∀ (now : Nat) (r : OTPRecord) (sub : Option (List Char)),
        r.invalidated = true →
        mpgepmcusers_otp_verify_post now r sub = (.invalid_state, some r)) := by
  refine ⟨?_, ?_, ?_⟩
  · intro s h r hs
    have := otp_reachable_inv s h
    rw [hs] at this
    exact this
  · intro now r sub hv hs hc
    have hinv : r.invalidated = false := by
      unfold OTPRecord.is_valid_and_not_expired at hv
      cases hb : r.invalidated <;> simp [hb] at hv ⊢
    by_cases h3 : 3 ≤ r.fail_attempts + 1
    · exact ⟨{ r with fail_attempts := r.fail_attempts + 1, invalidated := true },
        by simp [mpgepmcusers_otp_verify_post, hv, hs, hc, h3], rfl, by simp [h3]⟩
    · exact ⟨{ r with fail_attempts := r.fail_attempts + 1 },
        by simp [mpgepmcusers_otp_verify_post, hv, hs, hc, h3], rfl,
        by simp [hinv, h3]⟩
  · intro now r sub hinv
    have : r.is_valid_and_not_expired now = false := by
      simp [OTPRecord.is_valid_and_not_expired, hinv]
    simp [mpgepmcusers_otp_verify_post, this]

/-- C1 witness: concrete instantiations of the three conjuncts — a freshly
generated record is reachable and within the bound; a wrong submission
against a fresh unexpired record increments the counter from 0 to 1 without
invalidating; an invalidated record at 3 attempts rejects even the correct
code with the invalid-state outcome, unchanged. -/
theorem C1_otp_fail_counter_witness :
    ((mpgepmcusers_generate_otp 5 100 "123456".data).fail_attempts ≤ 3 ∧
      ((mpgepmcusers_generate_otp 5 100 "123456".data).fail_attempts = 3 →
        (mpgepmcusers_generate_otp 5 100 "123456".data).invalidated = true)) ∧
    (∃ r', (mpgepmcusers_otp_verify_post 10 (mpgepmcusers_generate_otp 5 100 "123456".data)
        (some "000000".data)).2 = some r' ∧
      r'.fail_attempts = (mpgepmcusers_generate_otp 5 100 "123456".data).fail_attempts + 1 ∧
      r'.invalidated =
        decide (3 ≤ (mpgepmcusers_generate_otp 5 100 "123456".data).fail_attempts + 1)) ∧
    mpgepmcusers_otp_verify_post 10 ⟨"123456".data, 105, 3, true⟩ (some "123456".data) =
      (.invalid_state, some ⟨"123456".data, 105, 3, true⟩) := by
  refine ⟨?_, ?_, ?_⟩
  · exact C1_otp_fail_counter.1 _
      (OTPReachable.generate none 5 100 "123456".data OTPReachable.init) _ rfl
  · exact C1_otp_fail_counter.2.1 10 _ "000000".data (by decide) (by decide) (by decide)
  · exact C1_otp_fail_counter.2.2 10 ⟨"123456".data, 105, 3, true⟩ (some "123456".data) rfl

/-- C2: while an existing OTP record's `expires_at` lies in the future a
resend request is rejected and the stored record is unchanged, for every
record — in particular regardless of its invalidated flag (first conjunct);
when the record is expired, or absent, resend stores exactly the record
`mpgepmcusers_generate_otp` would produce (second and third conjuncts). -/
theorem C2_resend_policy :
    (∀ (now ttl : Nat) (code : List Char) (sendOk : Bool) (r : OTPRecord),
        now < r.expires_at →
        mpgepmcusers_resend_otp now ttl code sendOk (some r) = (.rejected_active, some r)) ∧
    (∀ (now ttl : Nat) (code : List Char) (sendOk : Bool) (r : OTPRecord),
        r.expires_at ≤ now →
        (mpgepmcusers_resend_otp now ttl code sendOk (some r)).2 =
          some (mpgepmcusers_generate_otp now ttl code)) ∧
    (∀ (now ttl : Nat) (code : List Char) (sendOk : Bool),
        (mpgepmcusers_resend_otp now ttl code sendOk none).2 =
          some (mpgepmcusers_generate_otp now ttl code)) := by
  refine ⟨?_, ?_, ?_⟩
  · intro now ttl code sendOk r h
    simp [mpgepmcusers_resend_otp, h]
  · intro now ttl code sendOk r h
    have : ¬ (r.expires_at > now) := by omega
    cases sendOk <;> simp [mpgepmcusers_resend_otp, this]
  · intro now ttl code sendOk
    cases sendOk <;> simp [mpgepmcusers_resend_otp]

/-- C2 witness: a still-unexpired, already invalidated record rejects a
resend unchanged; an expired record is replaced by a fresh generated one. -/
theorem C2_resend_policy_witness :
    mpgepmcusers_resend_otp 10 100 "999999".data true (some ⟨"123456".data, 50, 3, true⟩) =
      (.rejected_active, some ⟨"123456".data, 50, 3, true⟩) ∧
    (mpgepmcusers_resend_otp 60 100 "999999".data true (some ⟨"123456".data, 50, 3, true⟩)).2 =
      some (mpgepmcusers_generate_otp 60 100 "999999".data) := by
  constructor
  · exact C2_resend_policy.1 10 100 "999999".data true ⟨"123456".data, 50, 3, true⟩ (by decide)
  · exact C2_resend_policy.2.1 60 100 "999999".data true ⟨"123456".data, 50, 3, true⟩ (by decide)

/-- C10: at the OTP-verification endpoint a non-empty submission against a
usable record is accepted exactly when the submission, with leading and
trailing whitespace stripped, equals the stored code taken verbatim (the
stored side is not stripped). -/
theorem C10_otp_strip_comparison :
    ∀ (now : Nat) (r : OTPRecord) (s : List Char),
      r.is_valid_and_not_expired now = true →
      pyStrip s ≠ [] →
      ((mpgepmcusers_otp_verify_post now r (some s)).1 = .verified ↔
        pyStrip s = r.otp_code) := by
  intro now r s hv hs
  by_cases hc : r.otp_code = pyStrip s
  · simp [mpgepmcusers_otp_verify_post, hv, hs, hc]
  · have hne : (mpgepmcusers_otp_verify_post now r (some s)).1 ≠ .verified := by
      by_cases h3 : 3 ≤ r.fail_attempts + 1 <;>
        simp [mpgepmcusers_otp_verify_post, hv, hs, hc, h3]
    exact ⟨fun h => absurd h hne, fun h => absurd h.symm hc⟩

/-- C10 witness: the code `123456` submitted as `" 123456 \t"` (surrounded
by whitespace) still verifies against a fresh usable record. -/
theorem C10_otp_strip_comparison_witness :
    (mpgepmcusers_otp_verify_post 10 ⟨"123456".data, 100, 0, false⟩
      (some " 123456 \t".data)).1 = .verified := by
  exact (C10_otp_strip_comparison 10 ⟨"123456".data, 100, 0, false⟩ " 123456 \t".data
    (by decide) (by decide)).mpr (by decide)

theorem mobileRestMatches_iff (rule : MobileValidationRule) (rest : List Char) :
    mobileRestMatches rule rest = true ↔
      ∃ op tail, rest = op ++ tail ∧ rule.operator_matches op = true ∧
        tail.length = rule.user_number_length ∧ tail.all (·.isDigit) = true := by
  unfold mobileRestMatches
  rw [List.any_eq_true]
  constructor
  · rintro ⟨i, _, hp⟩
    rw [Bool.and_eq_true, Bool.and_eq_true] at hp
    exact ⟨rest.take i, rest.drop i, (List.take_append_drop i rest).symm,
      hp.1.1, of_decide_eq_true hp.1.2, hp.2⟩
  · rintro ⟨op, tail, hsplit, hop, hlen, hdig⟩
    refine ⟨op.length, ?_, ?_⟩
    · rw [List.mem_range]
      subst hsplit
      have := List.length_append op tail
      omega
    · rw [Bool.and_eq_true, Bool.and_eq_true]
      subst hsplit
      rw [List.take_left, List.drop_left]
      exact ⟨⟨hop, decide_eq_true hlen⟩, hdig⟩

/-- C7: if no configured rule's country code starts the submitted number,
validation fails with the unsupported-country-code error listing every
configured code (first conjunct); otherwise, under the first matching rule,
validation succeeds exactly when the number is the rule's country code,
followed by a string in the operator-code pattern's language, followed by
exactly the configured count of digits — and every failure under a matched
rule cites the rule's example format (second conjunct).  Concretely,
`+923001234567` passes under the `+92` rule with operator pattern `300` and
subscriber length 7, while `+920001234567` fails citing the example format
(third and fourth conjuncts). -/
theorem C7_mobile_number :
    (∀ (rules : List MobileValidationRule) (value : List Char),
      (∀ r ∈ rules, r.country_code.isPrefixOf value = false) →
      mpgepmcusers_validate_mobile_number rules value =
        .error (.invalid_country_code (rules.map (·.country_code)))) ∧
    (∀ (rules : List MobileValidationRule) (value : List Char)
        (rule : MobileValidationRule),
      rules.find? (fun r => r.country_code.isPrefixOf value) = some rule →
      ((mpgepmcusers_validate_mobile_number rules value = .ok () ↔
        ∃ op tail, value = rule.country_code ++ op ++ tail ∧
          rule.operator_matches op = true ∧
          tail.length = rule.user_number_length ∧ tail.all (·.isDigit) = true) ∧
       (mpgepmcusers_validate_mobile_number rules value ≠ .ok () →
        mpgepmcusers_validate_mobile_number rules value =
          .error (.invalid_mobile_number_format rule.country_code
            rule.user_number_length rule.example_format)))) ∧
    mpgepmcusers_validate_mobile_number [pkRule] "+923001234567".data = .ok () ∧
    mpgepmcusers_validate_mobile_number [pkRule] "+920001234567".data =
      .error (.invalid_mobile_number_format "+92".data 7 "+923001234567".data) := by
  refine ⟨?_, ?_, ?_, ?_⟩
  · intro rules value h
    have hf : rules.find? (fun r => r.country_code.isPrefixOf value) = none := by
      rw [List.find?_eq_none]
      intro r hr
      simp [h r hr]
    simp [mpgepmcusers_validate_mobile_number, hf]
  · intro rules value rule hfind
    have hpre : rule.country_code.isPrefixOf value = true := by
      have hp := List.find?_some hfind
      simpa using hp
    have happ : rule.country_code ++ value.drop rule.country_code.length = value :=
      List.prefix_iff_eq_append.mp (List.isPrefixOf_iff_prefix.mp hpre)
    have hval : mpgepmcusers_validate_mobile_number rules value =
        (if mobileRestMatches rule (value.drop rule.country_code.length) = true then
          Except.ok ()
        else
          Except.error (.invalid_mobile_number_format rule.country_code
            rule.user_number_length rule.example_format)) := by
      unfold mpgepmcusers_validate_mobile_number
      rw [hfind]
    constructor
    · have hiff1 : (mpgepmcusers_validate_mobile_number rules value = .ok ()) ↔
          mobileRestMatches rule (value.drop rule.country_code.length) = true := by
        rw [hval]
        by_cases hm : mobileRestMatches rule (value.drop rule.country_code.length) = true
        · simp [hm]
        · simp [hm]
      rw [hiff1, mobileRestMatches_iff]
      constructor
      · rintro ⟨op, tail, hsplit, h1, h2, h3⟩
        refine ⟨op, tail, ?_, h1, h2, h3⟩
        rw [← happ, hsplit, List.append_assoc]
      · rintro ⟨op, tail, hsplit, h1, h2, h3⟩
        refine ⟨op, tail, ?_, h1, h2, h3⟩
        have hcc : rule.country_code ++ value.drop rule.country_code.length =
            rule.country_code ++ (op ++ tail) := by
          rw [happ, hsplit, List.append_assoc]
        exact List.append_cancel_left hcc
    · intro hne
      rw [hval] at hne ⊢
      by_cases hm : mobileRestMatches rule (value.drop rule.country_code.length) = true
      · rw [if_pos hm] at hne
        exact absurd rfl hne
      · rw [if_neg hm]
  · rfl
  · rfl

/-- C7 witness: with the `+92` example rule configured, a number with an
unsupported country code fails listing the configured codes, and the
passing example decomposes as country code, operator code and 7 digits. -/
theorem C7_mobile_number_witness :
    mpgepmcusers_validate_mobile_number [pkRule] "03001234567".data =
      .error (.invalid_country_code ["+92".data]) ∧
    (mpgepmcusers_validate_mobile_number [pkRule] "+923001234567".data = .ok () ↔
      ∃ op tail, "+923001234567".data = pkRule.country_code ++ op ++ tail ∧
        pkRule.operator_matches op = true ∧
        tail.length = pkRule.user_number_length ∧ tail.all (·.isDigit) = true) := by
  constructor
  · exact C7_mobile_number.1 [pkRule] "03001234567".data (by
      intro r hr
      simp only [List.mem_singleton] at hr
      subst hr
      rfl)
  · exact (C7_mobile_number.2.1 [pkRule] "+923001234567".data pkRule rfl).1

/-- C3 (counterexample): with an empty store and the email send failing
(`sendOk = false`), the signup handler neither rolls the new user back nor
reports an error: the store still contains the user and the message is the
success banner, because the view never inspects the boolean returned by
`mpgepmcusers_send_otp_email`. -/
theorem C3_signup_counterexample :
    ¬ ((mpgepmcusers_signup_post [] 0 100 "123456".data "a@gmail.com".data false).users
          = [] ∨
       (mpgepmcusers_signup_post [] 0 100 "123456".data "a@gmail.com".data false).msg
          ≠ SignupMsg.success) := by
  decide

/-- C3 (amended): the signup handler ignores the notification send outcome
entirely: for every store and send result the produced state and message
coincide with those of a successful send — the just-created inactive user
persists and the success message is reported even when the send fails. -/
theorem C3_signup_no_rollback :
    ∀ (store : List (List Char)) (now ttl : Nat) (code email : List Char) (sendOk : Bool),
      mpgepmcusers_signup_post store now ttl code email sendOk =
        mpgepmcusers_signup_post store now ttl code email true ∧
      (mpgepmcusers_signup_post store now ttl code email sendOk).users = email :: store ∧
      (mpgepmcusers_signup_post store now ttl code email sendOk).msg = .success := by
  intro store now ttl code email sendOk
  exact ⟨rfl, rfl, rfl⟩

/-- C9: with gender `OTHER` the signup form's gender-related validation
passes exactly when the qualifier is one of the three non-empty constrained
options (first conjunct); and for every gender other than `OTHER`, `save`
clears the stored `custom_gender` to `None` no matter what qualifier was
submitted (second conjunct). -/
theorem C9_gender_qualifier :
    (∀ cg : List Char,
      signupForm_gender_errors OTHER cg = [] ↔
        cg ∈ ["Non-binary".data, "Transgender".data, "Prefer-not-to-say".data]) ∧
    (∀ gender cg : List Char, gender ≠ OTHER →
      signupForm_save_custom_gender gender cg = none) := by
  constructor
  · intro cg
    constructor
    · intro h
      have h2 : ¬ (cg ≠ [] ∧ ¬ (cg ∈ CUSTOM_GENDER_OPTIONS)) := by
        intro hc
        simp [signupForm_gender_errors, hc] at h
      have h3 : pyStrip cg ≠ [] := by
        intro hc
        simp [signupForm_gender_errors, hc, OTHER] at h
      push_neg at h2
      by_cases he : cg = []
      · subst he
        exact absurd rfl h3
      · have hmem := h2 he
        simp only [CUSTOM_GENDER_OPTIONS, List.mem_cons, List.mem_singleton,
          List.not_mem_nil, or_false] at hmem
        rcases hmem with hx | hx | hx | hx
        · exact absurd hx he
        · simp [hx]
        · simp [hx]
        · simp [hx]
    · intro h
      fin_cases h <;> rfl
  · intro gender cg hg
    simp [signupForm_save_custom_gender, hg]

/-- C9 witness: with gender `OTHER`, the qualifier `Non-binary` validates;
with gender `M`, a submitted qualifier is cleared to `None` on save. -/
theorem C9_gender_qualifier_witness :
    (signupForm_gender_errors OTHER "Non-binary".data = [] ↔
      "Non-binary".data ∈
        ["Non-binary".data, "Transgender".data, "Prefer-not-to-say".data]) ∧
    signupForm_save_custom_gender "M".data "Transgender".data = none := by
  exact ⟨C9_gender_qualifier.1 "Non-binary".data,
    C9_gender_qualifier.2 "M".data "Transgender".data (by decide)⟩

/-- C6: two forgot-password requests that differ in anything server-side —
in particular only in whether the submitted email is registered — receive
the same response, and that response is the generic success: registration
status does not leak through the response. -/
theorem C6_forgot_password_no_enumeration :
    ∀ (reg1 reg2 : List (List Char))
      (tokens1 tokens2 : List (List Char × ResetTokenRecord))
      (now1 now2 : Nat) (email newTok1 newTok2 : List Char),
      (mpgepmcusers_forgot_password reg1 tokens1 now1 email newTok1).2 =
        (mpgepmcusers_forgot_password reg2 tokens2 now2 email newTok2).2 ∧
      (mpgepmcusers_forgot_password reg1 tokens1 now1 email newTok1).2 =
        .generic_success := by
  intro reg1 reg2 tokens1 tokens2 now1 now2 email t1 t2
  unfold mpgepmcusers_forgot_password
  constructor <;> split_ifs <;> rfl

theorem jGetStrThenStrip_total (fields : List (List Char × JVal)) (key : List Char)
    (h : ∀ x, jGet fields key = some x → ∃ s, x = JVal.jstr s) :
    ∃ s, jGetStrThenStrip fields key = some s := by
  unfold jGetStrThenStrip
  cases hx : jGet fields key with
  | none => exact ⟨pyStrip [], rfl⟩
  | some v =>
    obtain ⟨s, rfl⟩ := h v hx
    exact ⟨pyStrip s, rfl⟩

/-- C4 (counterexample): the claim promises a non-throwing response for
every JSON body including non-string values, but the payload
`field = "email", value = 5` makes `data.get('value', '').strip()`
(views.py line 270, outside the try block) raise an uncaught
`AttributeError`, modelled as `none`: no response of the promised shape is
produced. -/
theorem C4_ajax_counterexample :
    mpgepmcusers_ajax_validate_request ajaxDeps0
      (some (JVal.jobj [("field".data, JVal.jstr "email".data),
        ("value".data, JVal.jnum 5)])) = none := by
  rfl

/-- C4 (amended): for every request body that either fails JSON parsing or
parses to a JSON object whose `value` and `custom_gender` members, when
present, are strings, the live-validation endpoint returns a response of
shape `is_valid`/`error` without any exception propagating — and this holds
for arbitrary behaviour (including raises) of the dispatched validators and
store lookups.  Bodies outside that set (a non-object body, or a non-string
`value`/`custom_gender`) reach `.get`/`.strip()` calls outside the `try`
block and fault. -/
theorem C4_ajax_total :
    ∀ (deps : AjaxDeps) (body : Option JVal),
      (∀ v, body = some v → ∃ fields, v = JVal.jobj fields ∧
        (∀ x, jGet fields "value".data = some x → ∃ s, x = JVal.jstr s) ∧
        (∀ x, jGet fields "custom_gender".data = some x → ∃ s, x = JVal.jstr s)) →
      ∃ r, mpgepmcusers_ajax_validate_request deps body = some r := by
  intro deps body h
  cases body with
  | none => exact ⟨_, rfl⟩
  | some v =>
    obtain ⟨fields, rfl, hval, hcg⟩ := h v rfl
    obtain ⟨s1, hs1⟩ := jGetStrThenStrip_total fields "value".data hval
    obtain ⟨s2, hs2⟩ := jGetStrThenStrip_total fields "custom_gender".data hcg
    show ∃ r, mpgepmcusers_ajax_validate deps (JVal.jobj fields) = some r
    simp only [mpgepmcusers_ajax_validate, hs1, hs2]
    split_ifs <;> exact ⟨_, rfl⟩

/-- C4 witness: a well-typed payload (`field = "email"`, string `value`)
receives a response. -/
theorem C4_ajax_total_witness :
    ∃ r, mpgepmcusers_ajax_validate_request ajaxDeps0
      (some (JVal.jobj [("field".data, JVal.jstr "email".data),
        ("value".data, JVal.jstr "a@gmail.com".data)])) = some r := by
  apply C4_ajax_total
  intro v hv
  obtain rfl : JVal.jobj [("field".data, JVal.jstr "email".data),
      ("value".data, JVal.jstr "a@gmail.com".data)] = v := Option.some.inj hv
  refine ⟨_, rfl, ?_, ?_⟩
  · intro x hx
    have hg : jGet [("field".data, JVal.jstr "email".data),
        ("value".data, JVal.jstr "a@gmail.com".data)] "value".data =
        some (JVal.jstr "a@gmail.com".data) := rfl
    rw [hg] at hx
    exact ⟨"a@gmail.com".data, (Option.some.inj hx).symm⟩
  · intro x hx
    have hg : jGet [("field".data, JVal.jstr "email".data),
        ("value".data, JVal.jstr "a@gmail.com".data)] "custom_gender".data = none := rfl
    rw [hg] at hx
    exact absurd hx (by simp)
